import Mathlib

/-
Verification of the UIP Gateway (zxs1633079383/Universal_Interaction).

This file gives a shallow embedding, in Lean 4, of the parts of the Go
source that the verified properties are about:

  * the protocol data model (internal/protocol, src/unnamed/part_007);
  * the dispatch core: event queue backpressure, per-event processing,
    capability degradation, session registry (package gateway,
    src/unnamed/part_006 lines 385-803);
  * the backend clients: the HTTP client retry loop and response
    translation, and the OpenclawClient correlation registries
    (pending / sessionCtx maps), deliverResponse and HandleCallback
    (internal/clawdbot/client.go);
  * the local adapter: handleMessage, the WebSocket read pump, and
    SendIntent (internal/imwebhook/notifier.go, package local part).

Effects are made explicit: freshly generated UUIDs and timestamps become
parameters, HTTP exchanges become values describing their outcome, the
buffered Go channels become lists bounded by the channel capacity, and Go
maps become association lists with first-match lookup and replace-on-insert.
-/

namespace UIP

/-! ## Protocol data model (src/unnamed/part_007)

In the Go source InputType and IntentType are string types, so they are
modelled as strings with the named constants from the source. -/

abbrev InputType := String

def InputTypeText : InputType := "text"

def InputTypeEvent : InputType := "event"

def InputTypeCommand : InputType := "command"

abbrev IntentType := String

def IntentTypeReply : IntentType := "reply"

def IntentTypeAsk : IntentType := "ask"

def IntentTypeNotify : IntentType := "notify"

def IntentTypeNoop : IntentType := "noop"

abbrev ParticipantType := String

def ParticipantTypeHuman : ParticipantType := "human"

/-- Session from part_007: externalSessionId, userId, participantType. -/
structure Session where
  externalSessionID : String
  userID : String
  participantType : ParticipantType
deriving DecidableEq, Repr

/-- The open payload bag `map[string]interface{}` of an Input.  The code
under verification reads exactly the keys "text", "channelId" and
"conversationType" with a string type assertion, so the bag is modelled by
those three optional string fields; an absent key or a non-string value is
`none`. -/
structure Payload where
  text : Option String
  channelId : Option String
  conversationType : Option String
deriving DecidableEq, Repr

/-- Input from part_007: type plus payload bag. -/
structure Input where
  type : InputType
  payload : Payload
deriving DecidableEq, Repr

/-- SurfaceCapabilities from part_007. -/
structure SurfaceCapabilities where
  supportsReply : Bool
  supportsEdit : Bool
  supportsReaction : Bool
  supportsThread : Bool
  supportsAttachment : Bool
  supportsMarkdown : Bool
deriving DecidableEq, Repr

/-- EventMeta from part_007. -/
structure EventMeta where
  timestamp : Int
  traceID : String
  source : String
  adapterName : String
deriving DecidableEq, Repr

/-- CanonicalInteractionEvent from part_007. -/
structure CanonicalInteractionEvent where
  interactionID : String
  session : Session
  input : Input
  capabilities : SurfaceCapabilities
  meta : EventMeta
deriving DecidableEq, Repr

/-- NewCanonicalInteractionEvent (part_007 lines 104-130).  The generated
interaction UUID, trace UUID and timestamp are parameters. -/
def NewCanonicalInteractionEvent (interactionID traceID : String) (timestamp : Int)
    (sessionID userID : String) (inputType : InputType) (payload : Payload)
    (capabilities : SurfaceCapabilities) (source : String) : CanonicalInteractionEvent :=
  { interactionID := interactionID
    session :=
      { externalSessionID := sessionID
        userID := userID
        participantType := ParticipantTypeHuman }
    input := { type := inputType, payload := payload }
    capabilities := capabilities
    meta :=
      { timestamp := timestamp
        traceID := traceID
        source := source
        adapterName := "" } }

/-- Attachment from part_007 (intent attachments). -/
structure Attachment where
  type : String
  url : String
  data : String
  name : String
deriving DecidableEq, Repr

/-- IntentContent from part_007. -/
structure IntentContent where
  text : String
  markdown : String
  attachments : List Attachment
deriving DecidableEq, Repr

/-- IntentConstraints from part_007.  The Go field Confidence is a float64
that the embedded code only ever sets to the exactly representable 1.0, so
it is modelled as a rational. -/
structure IntentConstraints where
  requiresAck : Bool
  confidence : Rat
  priority : Int
  expiresAt : Int
deriving DecidableEq, Repr

/-- InteractionIntent from part_007. -/
structure InteractionIntent where
  intentID : String
  intentType : IntentType
  content : IntentContent
  constraints : IntentConstraints
  targetSessionID : String
  inReplyTo : String
deriving DecidableEq, Repr

/-- NewInteractionIntent (part_007 lines 184-203).  The generated intent
UUID is a parameter. -/
def NewInteractionIntent (intentID : String) (intentType : IntentType)
    (text targetSessionID inReplyTo : String) : InteractionIntent :=
  { intentID := intentID
    intentType := intentType
    content := { text := text, markdown := "", attachments := [] }
    constraints := { requiresAck := false, confidence := 1, priority := 0, expiresAt := 0 }
    targetSessionID := targetSessionID
    inReplyTo := inReplyTo }

/-! ## Association-list model of Go maps

Go map reads are modelled by first-match lookup, writes by
replace-on-insert, and delete by filtering the key out. -/

def mapLookup {β : Type} (m : List (String × β)) (k : String) : Option β :=
  match m with
  | [] => none
  | (k1, v) :: rest => if k1 = k then some v else mapLookup rest k

def mapErase {β : Type} (m : List (String × β)) (k : String) : List (String × β) :=
  match m with
  | [] => []
  | p :: rest => if p.1 = k then mapErase rest k else p :: mapErase rest k

def mapInsert {β : Type} (m : List (String × β)) (k : String) (v : β) : List (String × β) :=
  (k, v) :: mapErase m k

theorem mapLookup_erase_self {β : Type} (m : List (String × β)) (k : String) :
    mapLookup (mapErase m k) k = none := by
  induction m with
  | nil => rfl
  | cons p rest ih =>
    by_cases h : p.1 = k
    · simpa [mapErase, h] using ih
    · simpa [mapErase, mapLookup, h] using ih

theorem mapLookup_erase_other {β : Type} (m : List (String × β)) (k k2 : String)
    (h : ¬ k = k2) : mapLookup (mapErase m k) k2 = mapLookup m k2 := by
  induction m with
  | nil => rfl
  | cons p rest ih =>
    by_cases hp : p.1 = k
    · have hp2 : ¬ p.1 = k2 := by rw [hp]; exact h
      simpa [mapErase, mapLookup, hp, hp2, h] using ih
    · by_cases hq : p.1 = k2
      · have hq2 : ¬ k2 = k := fun hh => h hh.symm
        simp [mapErase, mapLookup, hp, hq, hq2]
      · simpa [mapErase, mapLookup, hp, hq] using ih

theorem mapLookup_insert_self {β : Type} (m : List (String × β)) (k : String) (v : β) :
    mapLookup (mapInsert m k v) k = some v := by
  simp [mapInsert, mapLookup]

theorem mapLookup_insert_other {β : Type} (m : List (String × β)) (k k2 : String) (v : β)
    (h : ¬ k = k2) : mapLookup (mapInsert m k v) k2 = mapLookup m k2 := by
  simp [mapInsert, mapLookup, h, mapLookup_erase_other m k k2 h]

/-! ## Capability degradation (Gateway.applyDegradation, part_006 lines 681-698)

The Go function mutates the intent in place; here it returns the updated
intent.  The third branch of the source (unsupported edit on a notify
intent) is an explicit no-op in the source and therefore absent here. -/

def applyDegradation (caps : SurfaceCapabilities) (intent0 : InteractionIntent) :
    InteractionIntent :=
  let intent1 :=
    if caps.supportsMarkdown then intent0
    else { intent0 with content := { intent0.content with markdown := "" } }
  let intent2 :=
    if caps.supportsAttachment then intent1
    else { intent1 with content := { intent1.content with attachments := [] } }
  intent2

theorem applyDegradation_intentType (caps : SurfaceCapabilities) (i : InteractionIntent) :
    (applyDegradation caps i).intentType = i.intentType := by
  simp only [applyDegradation]
  by_cases hm : caps.supportsMarkdown <;> by_cases ha : caps.supportsAttachment <;>
    simp [hm, ha]

theorem applyDegradation_targetSessionID (caps : SurfaceCapabilities) (i : InteractionIntent) :
    (applyDegradation caps i).targetSessionID = i.targetSessionID := by
  simp only [applyDegradation]
  by_cases hm : caps.supportsMarkdown <;> by_cases ha : caps.supportsAttachment <;>
    simp [hm, ha]

theorem applyDegradation_inReplyTo (caps : SurfaceCapabilities) (i : InteractionIntent) :
    (applyDegradation caps i).inReplyTo = i.inReplyTo := by
  simp only [applyDegradation]
  by_cases hm : caps.supportsMarkdown <;> by_cases ha : caps.supportsAttachment <;>
    simp [hm, ha]

theorem applyDegradation_text (caps : SurfaceCapabilities) (i : InteractionIntent) :
    (applyDegradation caps i).content.text = i.content.text := by
  simp only [applyDegradation]
  by_cases hm : caps.supportsMarkdown <;> by_cases ha : caps.supportsAttachment <;>
    simp [hm, ha]

theorem applyDegradation_idem (caps : SurfaceCapabilities) (i : InteractionIntent) :
    applyDegradation caps (applyDegradation caps i) = applyDegradation caps i := by
  simp only [applyDegradation]
  by_cases hm : caps.supportsMarkdown <;> by_cases ha : caps.supportsAttachment <;>
    simp [hm, ha]

/-- Degrading an intent freshly built by NewInteractionIntent changes
nothing: its markdown is already empty and its attachment list already
nil. -/
theorem applyDegradation_newIntent (caps : SurfaceCapabilities)
    (intentID intentType text target inReplyTo : String) :
    applyDegradation caps (NewInteractionIntent intentID intentType text target inReplyTo)
      = NewInteractionIntent intentID intentType text target inReplyTo := by
  simp only [applyDegradation, NewInteractionIntent]
  by_cases hm : caps.supportsMarkdown <;> by_cases ha : caps.supportsAttachment <;>
    simp [hm, ha]

/-- C5: capability degradation is idempotent and never alters the
intentType, targetSessionId or inReplyTo fields, for any capability and
intent combination (Gateway.applyDegradation, part_006 lines 681-698). -/
theorem C5_degradation_idempotent_and_header_preserving
    (caps : SurfaceCapabilities) (intent : InteractionIntent) :
    applyDegradation caps (applyDegradation caps intent) = applyDegradation caps intent
    ∧ (applyDegradation caps intent).intentType = intent.intentType
    ∧ (applyDegradation caps intent).targetSessionID = intent.targetSessionID
    ∧ (applyDegradation caps intent).inReplyTo = intent.inReplyTo :=
  ⟨applyDegradation_idem caps intent, applyDegradation_intentType caps intent,
   applyDegradation_targetSessionID caps intent, applyDegradation_inReplyTo caps intent⟩

/-- C9: with supportsMarkdown=false degradation empties the markdown field
and leaves the intentType unchanged; with supportsAttachment=false it
clears the attachment list (Gateway.applyDegradation, part_006 681-698). -/
theorem C9_degradation_rules (caps : SurfaceCapabilities) (intent : InteractionIntent) :
    (caps.supportsMarkdown = false →
      (applyDegradation caps intent).content.markdown = ""
      ∧ (applyDegradation caps intent).intentType = intent.intentType)
    ∧ (caps.supportsAttachment = false →
      (applyDegradation caps intent).content.attachments = []) := by
  constructor
  · intro hm
    refine ⟨?_, applyDegradation_intentType caps intent⟩
    simp only [applyDegradation, hm]
    by_cases ha : caps.supportsAttachment <;> simp [ha]
  · intro ha
    simp only [applyDegradation, ha]
    by_cases hm : caps.supportsMarkdown <;> simp [hm, ha]

/-- Sample concrete capabilities with markdown and attachments unsupported,
used to instantiate degradation theorems. -/
def strippedCaps : SurfaceCapabilities :=
  { supportsReply := true, supportsEdit := false, supportsReaction := false,
    supportsThread := false, supportsAttachment := false, supportsMarkdown := false }

/-- Sample concrete intent carrying markdown and an attachment. -/
def richIntent : InteractionIntent :=
  { intentID := "int-9"
    intentType := IntentTypeReply
    content :=
      { text := "hello"
        markdown := "**hello**"
        attachments := [{ type := "image", url := "http://x/y.png", data := "", name := "y.png" }] }
    constraints := { requiresAck := false, confidence := 1, priority := 0, expiresAt := 0 }
    targetSessionID := "s-9"
    inReplyTo := "i-9" }

/-- Witness for C9 at a concrete capability/intent pair. -/
theorem C9_degradation_rules_witness :
    (applyDegradation strippedCaps richIntent).content.markdown = ""
    ∧ (applyDegradation strippedCaps richIntent).intentType = richIntent.intentType
    ∧ (applyDegradation strippedCaps richIntent).content.attachments = [] :=
  ⟨((C9_degradation_rules strippedCaps richIntent).1 rfl).1,
   ((C9_degradation_rules strippedCaps richIntent).1 rfl).2,
   (C9_degradation_rules strippedCaps richIntent).2 rfl⟩

/-! ## Dispatch core (package gateway, part_006 lines 385-803) -/

/-- The eventContext wrapper put on the gateway queue (part_006 422-427),
with receivedAt as an integer timestamp. -/
structure EventContext where
  event : CanonicalInteractionEvent
  adapterName : String
  receivedAt : Int
deriving DecidableEq, Repr

/-- Gateway.handleEvent (part_006 577-593).  The bounded buffered channel is
a list together with its capacity; the select with a default branch either
appends (queue has room) or leaves the queue unchanged and reports the
drop.  The returned Bool is true exactly when the event was dropped. -/
def handleEvent (queueSize : Nat) (queue : List EventContext) (ectx : EventContext) :
    List EventContext × Bool :=
  if queue.length < queueSize then (queue ++ [ectx], false) else (queue, true)

/-- C8: submitting to a full queue neither blocks nor changes the queue:
the event is dropped; and on every queue state the enqueue returns at once,
either appending (room available) or dropping (Gateway.handleEvent,
part_006 577-593). -/
theorem C8_queue_backpressure (queueSize : Nat) (queue : List EventContext)
    (ectx : EventContext) :
    (queue.length = queueSize → handleEvent queueSize queue ectx = (queue, true))
    ∧ (handleEvent queueSize queue ectx = (queue, true)
       ∨ handleEvent queueSize queue ectx = (queue ++ [ectx], false)) := by
  constructor
  · intro h
    simp [handleEvent, h]
  · by_cases h : queue.length < queueSize
    · exact Or.inr (by simp [handleEvent, h])
    · exact Or.inl (by simp [handleEvent, h])

/-- A sample event used to instantiate witnesses. -/
def sampleEvent : CanonicalInteractionEvent :=
  NewCanonicalInteractionEvent "i-0" "t-0" 0 "s-0" "u-0" InputTypeText
    { text := some "hello", channelId := some "", conversationType := some "direct" }
    strippedCaps "local-adapter"

/-- Witness for C8: a queue of capacity one holding one event drops the
next submission and is left unchanged. -/
theorem C8_queue_backpressure_witness :
    handleEvent 1 [⟨sampleEvent, "local", 0⟩] ⟨sampleEvent, "local", 1⟩
      = ([⟨sampleEvent, "local", 0⟩], true) :=
  (C8_queue_backpressure 1 [⟨sampleEvent, "local", 0⟩] ⟨sampleEvent, "local", 1⟩).1 rfl

/-- The session registry entry (part_006 736-740). -/
structure SessionEntry where
  session : Session
  createdAt : Int
  lastSeen : Int
deriving DecidableEq, Repr

/-- SessionRegistry.Touch (part_006 751-766): refresh lastSeen of an
existing entry, or create a fresh entry. -/
def sessionsTouch (m : List (String × SessionEntry)) (id : String) (sess : Session)
    (now : Int) : List (String × SessionEntry) :=
  match mapLookup m id with
  | some entry => mapInsert m id { entry with lastSeen := now, session := sess }
  | none => mapInsert m id { session := sess, createdAt := now, lastSeen := now }

/-- The fixed apology text of the dispatch-core error fallback
(part_006 645). -/
def apologyText : String :=
  "Sorry, I encountered an error processing your request. Please try again."

/-- The intent computed by Gateway.processEvent after the backend call
(part_006 636-652): the backend intent on success, otherwise the apology
intent addressed to the event session, followed in both cases by
capability degradation.  The backend call outcome and the error-intent
UUID are parameters. -/
def processIntent (errIntentID : String) (event : CanonicalInteractionEvent)
    (backendResult : Except String InteractionIntent) : InteractionIntent :=
  let intent :=
    match backendResult with
    | Except.ok i => i
    | Except.error _ =>
        NewInteractionIntent errIntentID IntentTypeReply apologyText
          event.session.externalSessionID event.interactionID
  applyDegradation event.capabilities intent

/-- Gateway.processEvent (part_006 618-678): touch the session registry,
compute the (possibly fallback) degraded intent, and hand it to the
originating adapter when that adapter is still registered; a missing
adapter drops the intent.  The second component is the delivered
(adapterName, intent) pair, or none on drop. -/
def processEventFull (adapters : List String) (sessions : List (String × SessionEntry))
    (now : Int) (errIntentID : String) (ectx : EventContext)
    (backendResult : Except String InteractionIntent) :
    List (String × SessionEntry) × Option (String × InteractionIntent) :=
  let sessions2 :=
    sessionsTouch sessions ectx.event.session.externalSessionID ectx.event.session now
  let intent := processIntent errIntentID ectx.event backendResult
  if ectx.adapterName ∈ adapters then (sessions2, some (ectx.adapterName, intent))
  else (sessions2, none)

/-- C6: whenever the backend call fails, the dispatch core hands the
originating adapter a reply intent with the fixed apology text addressed to
the event's externalSessionId, instead of surfacing the backend error
(Gateway.processEvent, part_006 636-649). -/
theorem C6_backend_error_apology (adapters : List String)
    (sessions : List (String × SessionEntry)) (now : Int)
    (errIntentID adapterName errMsg : String) (event : CanonicalInteractionEvent)
    (h : adapterName ∈ adapters) :
    (processEventFull adapters sessions now errIntentID ⟨event, adapterName, now⟩
        (Except.error errMsg)).2
      = some (adapterName,
          NewInteractionIntent errIntentID IntentTypeReply apologyText
            event.session.externalSessionID event.interactionID) := by
  simp [processEventFull, processIntent, h, applyDegradation_newIntent]

/-- Witness for C6 at a concrete registered adapter and failing backend. -/
theorem C6_backend_error_apology_witness :
    (processEventFull ["local"] [] 0 "err-intent-1" ⟨sampleEvent, "local", 0⟩
        (Except.error "backend boom")).2
      = some ("local",
          NewInteractionIntent "err-intent-1" IntentTypeReply apologyText
            sampleEvent.session.externalSessionID sampleEvent.interactionID) :=
  C6_backend_error_apology ["local"] [] 0 "err-intent-1" "local" "backend boom" sampleEvent
    (by decide)

/-! ## HTTP backend client (internal/clawdbot/client.go, HTTPClient) -/

/-- ErrorInfo from client.go 153-156. -/
structure ErrorInfo where
  code : String
  message : String
deriving DecidableEq, Repr

/-- ClawdbotResponse from client.go 145-151 (the parsed legacy response),
metadata omitted since the embedded code never reads it. -/
structure ClawdbotResponse where
  response : String
  type : String
  sessionID : String
  error : Option ErrorInfo
deriving DecidableEq, Repr

/-- HTTPClient.doRequest (client.go 230-297).  The HTTP exchange itself
(network error, status greater than or equal to 400, or body parse failure)
collapses into the error case of the httpResult parameter; on a parsed
response the function rejects an embedded error object and otherwise
translates the response into an intent addressed to the event session.
The generated intent UUID is a parameter. -/
def doRequest (intentID : String) (event : CanonicalInteractionEvent)
    (httpResult : Except String ClawdbotResponse) : Except String InteractionIntent :=
  match httpResult with
  | Except.error e => Except.error e
  | Except.ok resp =>
    match resp.error with
    | some einfo =>
        Except.error ("clawdbot error: " ++ einfo.code ++ " - " ++ einfo.message)
    | none =>
        let intentType :=
          if resp.type = "ask" then IntentTypeAsk
          else if resp.type = "notify" then IntentTypeNotify
          else IntentTypeReply
        Except.ok (NewInteractionIntent intentID intentType resp.response
          event.session.externalSessionID event.interactionID)

/-- C3: whatever the HTTP exchange produced, the intent the dispatch core
ultimately sends back to the adapter targets the triggering event's
externalSessionId — through the backend success path (doRequest builds the
intent on the event's session) and through the error fallback path (the
apology intent is addressed to the event's session), with degradation
leaving the target untouched (Gateway.processEvent part_006 618-678 and
HTTPClient.doRequest client.go 277-297). -/
theorem C3_target_session_roundtrip (errIntentID reqIntentID : String)
    (event : CanonicalInteractionEvent) (httpResult : Except String ClawdbotResponse) :
    (processIntent errIntentID event (doRequest reqIntentID event httpResult)).targetSessionID
      = event.session.externalSessionID := by
  cases httpResult with
  | error e =>
    simp [doRequest, processIntent, applyDegradation_targetSessionID, NewInteractionIntent]
  | ok resp =>
    cases hre : resp.error with
    | some einfo =>
      simp [doRequest, hre, processIntent, applyDegradation_targetSessionID,
        NewInteractionIntent]
    | none =>
      simp [doRequest, hre, processIntent, applyDegradation_targetSessionID,
        NewInteractionIntent]

/-! ### Retry loop of HTTPClient.ProcessEvent (client.go 203-228)

The Go loop runs attempt = 0, 1, ..., MaxRetries.  Before every attempt
except the first it sleeps for an exponential backoff and aborts at once
with the context error if the outer context is cancelled during the sleep.
The loop is modelled with the per-attempt send outcome and the set of
cancelled backoffs as oracles, and fuel equal to the remaining loop
iterations; every branch records how many send attempts were actually
performed. -/

inductive RetryResult (α : Type) where
  | success (attempts : Nat) (val : α)
  | ctxCancelled (attempts : Nat)
  | exhausted (attempts : Nat)
deriving DecidableEq, Repr

def RetryResult.attempts {α : Type} : RetryResult α → Nat
  | success n _ => n
  | ctxCancelled n => n
  | exhausted n => n

/-- The backoff slept before retry attempt k, in milliseconds: the source's
time.Duration(1 shifted left by (attempt-1)) * 100ms. -/
def backoffMs (attempt : Nat) : Nat := (1 <<< (attempt - 1)) * 100

def retryFrom {α : Type} (send : Nat → Option α) (cancelled : Nat → Bool) :
    Nat → Nat → RetryResult α
  | _, 0 => RetryResult.exhausted 0
  | attempt, fuel + 1 =>
    if 0 < attempt ∧ cancelled attempt then RetryResult.ctxCancelled 0
    else
      match send attempt with
      | some v => RetryResult.success 1 v
      | none =>
        match retryFrom send cancelled (attempt + 1) fuel with
        | RetryResult.success n v => RetryResult.success (n + 1) v
        | RetryResult.ctxCancelled n => RetryResult.ctxCancelled (n + 1)
        | RetryResult.exhausted n => RetryResult.exhausted (n + 1)

/-- The whole retry loop of HTTPClient.ProcessEvent: attempts 0 through
maxRetries, i.e. maxRetries + 1 loop iterations. -/
def httpRetryLoop {α : Type} (maxRetries : Nat) (send : Nat → Option α)
    (cancelled : Nat → Bool) : RetryResult α :=
  retryFrom send cancelled 0 (maxRetries + 1)

theorem retryFrom_attempts_le {α : Type} (send : Nat → Option α) (cancelled : Nat → Bool) :
    ∀ fuel attempt, (retryFrom send cancelled attempt fuel).attempts ≤ fuel := by
  intro fuel
  induction fuel with
  | zero => intro a; simp [retryFrom, RetryResult.attempts]
  | succ n ih =>
    intro a
    by_cases hc : 0 < a ∧ cancelled a
    · simp [retryFrom, hc, RetryResult.attempts]
    · cases hs : send a with
      | some v => simp [retryFrom, hc, hs, RetryResult.attempts]
      | none =>
        have := ih (a + 1)
        cases hr : retryFrom send cancelled (a + 1) n with
        | success m v =>
          rw [hr] at this
          simp [retryFrom, hc, hs, hr, RetryResult.attempts] at this ⊢
          omega
        | ctxCancelled m =>
          rw [hr] at this
          simp [retryFrom, hc, hs, hr, RetryResult.attempts] at this ⊢
          omega
        | exhausted m =>
          rw [hr] at this
          simp [retryFrom, hc, hs, hr, RetryResult.attempts] at this ⊢
          omega

/-- A fixed sample intent used as the successful send value in the retry
scenario. -/
def retryIntent : InteractionIntent :=
  NewInteractionIntent "retry-int-1" IntentTypeReply "done" "s-0" "i-0"

/-- C7 counterexample: with max-retries = 3 and a send that always fails,
the loop performs 4 send attempts, exceeding the configured maximum of 3
(HTTPClient.ProcessEvent, client.go 205: attempt ranges over 0..MaxRetries
inclusive). -/
theorem C7_counterexample_four_attempts :
    (httpRetryLoop 3 (fun _ => (none : Option InteractionIntent))
        (fun _ => false)).attempts = 4 := by
  decide

/-! ## Local adapter (package local, imwebhook/notifier.go lines 173-622) -/

/-- MessageRequest from the local adapter (notifier.go 234-241).  Absent
JSON fields decode to the empty string, exactly as in Go. -/
structure MessageRequest where
  sessionID : String
  userID : String
  text : String
  type : String
  channelID : String
  conversationType : String
deriving DecidableEq, Repr

/-- The capabilities declared by NewLocalAdapter (notifier.go 274-281). -/
def localCapabilities : SurfaceCapabilities :=
  { supportsReply := true, supportsEdit := true, supportsReaction := false,
    supportsThread := false, supportsAttachment := false, supportsMarkdown := true }

/-- LocalAdapter.handleMessage (notifier.go 368-442), from the decoded
request to the canonical event handed to the gateway.  The UUID generated
for an absent sessionId, the interaction UUID, the trace UUID and the
timestamp are parameters.  Field defaulting happens in source order: an
empty sessionId becomes the fresh UUID before the later
channelId-as-sessionId fallback is evaluated. -/
def handleMessage (caps : SurfaceCapabilities) (uuidSession interactionID traceID : String)
    (timestamp : Int) (req0 : MessageRequest) : CanonicalInteractionEvent :=
  let req1 := if req0.sessionID = "" then { req0 with sessionID := uuidSession } else req0
  let req2 := if req1.userID = "" then { req1 with userID := "anonymous" } else req1
  let req3 := if req2.type = "" then { req2 with type := "text" } else req2
  let convType :=
    if req3.conversationType = "" then
      (if req3.channelID = "" then "direct" else "channel")
    else req3.conversationType
  let payload : Payload :=
    { text := some req3.text, channelId := some req3.channelID,
      conversationType := some convType }
  let sessionID :=
    if req3.channelID ≠ "" ∧ req3.sessionID = "" then req3.channelID else req3.sessionID
  let ev := NewCanonicalInteractionEvent interactionID traceID timestamp sessionID
    req3.userID req3.type payload caps "local-adapter"
  { ev with meta := { ev.meta with adapterName := "local" } }

/-- The per-frame body of LocalAdapter.wsReadPump (notifier.go 499-569):
identical to handleMessage except that an absent sessionId / userId
defaults to the connection's sessionId / userId (both non-empty, assigned
at upgrade time) and the source string differs. -/
def wsHandleMessage (caps : SurfaceCapabilities)
    (connSessionID connUserID interactionID traceID : String) (timestamp : Int)
    (req0 : MessageRequest) : CanonicalInteractionEvent :=
  let req1 := if req0.sessionID = "" then { req0 with sessionID := connSessionID } else req0
  let req2 := if req1.userID = "" then { req1 with userID := connUserID } else req1
  let req3 := if req2.type = "" then { req2 with type := "text" } else req2
  let convType :=
    if req3.conversationType = "" then
      (if req3.channelID = "" then "direct" else "channel")
    else req3.conversationType
  let payload : Payload :=
    { text := some req3.text, channelId := some req3.channelID,
      conversationType := some convType }
  let sessionID :=
    if req3.channelID ≠ "" ∧ req3.sessionID = "" then req3.channelID else req3.sessionID
  let ev := NewCanonicalInteractionEvent interactionID traceID timestamp sessionID
    req3.userID req3.type payload caps "local-adapter-ws"
  { ev with meta := { ev.meta with adapterName := "local" } }

/-- The C1 request: channelId set, sessionId absent. -/
def c1Request : MessageRequest :=
  { sessionID := "", userID := "u", text := "hi", type := "",
    channelID := "chan-1", conversationType := "" }

/-- C1 fails on the code: for an HTTP message with channelId "chan-1" and
no sessionId, handleMessage defaults the empty sessionId to the freshly
generated UUID before the channelId fallback is checked, so the event's
correlation key is the UUID and never the channel id; the WebSocket read
pump likewise substitutes the connection's session id first.  The
channelId-as-sessionId branch (notifier.go 409-413 and 544-548) is
unreachable, contradicting its own comment. -/
theorem C1_channelId_fallback_dead :
    (handleMessage localCapabilities "fresh-uuid-1" "i-1" "t-1" 0
        c1Request).session.externalSessionID = "fresh-uuid-1"
    ∧ (handleMessage localCapabilities "fresh-uuid-1" "i-1" "t-1" 0
        c1Request).session.externalSessionID ≠ "chan-1"
    ∧ (wsHandleMessage localCapabilities "ws-sess-1" "ws-user-1" "i-2" "t-2" 0
        c1Request).session.externalSessionID = "ws-sess-1"
    ∧ (wsHandleMessage localCapabilities "ws-sess-1" "ws-user-1" "i-2" "t-2" 0
        c1Request).session.externalSessionID ≠ "chan-1" := by
  refine ⟨by decide, by decide, by decide, by decide⟩

/-! ### LocalAdapter.SendIntent (notifier.go 328-353) -/

/-- The per-connection state of a WebSocket client (notifier.go 225-231):
the bounded send channel is a list bounded by the channel capacity 256. -/
structure WsConn where
  sessionID : String
  userID : String
  sendCh : List InteractionIntent
deriving DecidableEq, Repr

/-- Capacity of a wsConnection send channel (notifier.go 465). -/
def wsSendCap : Nat := 256

/-- LocalAdapter.SendIntent (notifier.go 328-353).  The connection map is
keyed by session id.  When no connection matches the intent's target the
function falls through and returns nil; when one matches, the select either
buffers the serialized intent (room in the channel), or returns the context
error (context already cancelled), or takes the default branch that logs
and drops, after which the function still returns nil.  Result: updated
connection map and the returned error, none meaning nil. -/
def sendIntent (wsConns : List (String × WsConn)) (ctxCancelled : Bool)
    (intent : InteractionIntent) : List (String × WsConn) × Option String :=
  match mapLookup wsConns intent.targetSessionID with
  | none => (wsConns, none)
  | some conn =>
    if conn.sendCh.length < wsSendCap then
      (mapInsert wsConns intent.targetSessionID
        { conn with sendCh := conn.sendCh ++ [intent] }, none)
    else if ctxCancelled then (wsConns, some "context canceled")
    else (wsConns, none)

/-- C10: an intent whose target session has no registered WebSocket
connection is silently discarded with a nil return and an unchanged
connection map, and the same happens when the matching connection's send
buffer is full (with a live context): SendIntent reports success although
nothing is delivered (LocalAdapter.SendIntent, notifier.go 328-353). -/
theorem C10_sendIntent_silent_drop (wsConns : List (String × WsConn))
    (ctxCancelled : Bool) (intent : InteractionIntent) :
    (mapLookup wsConns intent.targetSessionID = none →
      sendIntent wsConns ctxCancelled intent = (wsConns, none))
    ∧ (∀ conn, mapLookup wsConns intent.targetSessionID = some conn →
        wsSendCap ≤ conn.sendCh.length → ctxCancelled = false →
        sendIntent wsConns ctxCancelled intent = (wsConns, none)) := by
  constructor
  · intro h
    simp [sendIntent, h]
  · intro conn h hful hctx
    have : ¬ conn.sendCh.length < wsSendCap := by omega
    simp [sendIntent, h, this, hctx]

/-- A full send buffer: 256 queued intents. -/
def fullConn : WsConn :=
  { sessionID := "s-0", userID := "u-0", sendCh := List.replicate 256 retryIntent }

/-- An intent addressed to session s-0. -/
def s0Intent : InteractionIntent :=
  NewInteractionIntent "int-s0" IntentTypeReply "hello" "s-0" "i-0"

/-- Witness for C10: no connection at all, and a single full connection,
both return nil and leave the map unchanged. -/
theorem C10_sendIntent_silent_drop_witness :
    sendIntent [] false s0Intent = ([], none)
    ∧ sendIntent [("s-0", fullConn)] false s0Intent = ([("s-0", fullConn)], none) :=
  ⟨(C10_sendIntent_silent_drop [] false s0Intent).1 rfl,
   (C10_sendIntent_silent_drop [("s-0", fullConn)] false s0Intent).2 fullConn rfl
     (by simp only [fullConn, wsSendCap, List.length_replicate]; decide) rfl⟩

/-! ## OpenclawClient correlation registries (internal/clawdbot/client.go 328-881)

The two Go maps (pending, keyed by conversation id, and sessionCtx, keyed
by both session id and user id) hold pointers to the same PendingContext
objects.  Aliasing is modelled with a heap: contexts is the list of
allocated PendingContext records and both maps store indices into it. -/

/-- PendingContext (client.go 329-334); ResponseCh is a buffered channel of
capacity 1 (client.go 516), modelled as a list bounded by that capacity. -/
structure PendingContext where
  responseCh : List InteractionIntent
  channelID : String
  userID : String
  sessionID : String
deriving DecidableEq, Repr

/-- The correlation state of an OpenclawClient: the allocated contexts and
the two index maps. -/
structure ClientState where
  contexts : List PendingContext
  pending : List (String × Nat)
  sessionCtx : List (String × Nat)
deriving DecidableEq, Repr

def emptyClientState : ClientState := { contexts := [], pending := [], sessionCtx := [] }

/-- Non-blocking send on a buffered channel of the given capacity: the Go
select with a default branch appends if there is room and otherwise drops. -/
def chanTrySend (cap : Nat) (ch : List InteractionIntent) (intent : InteractionIntent) :
    List InteractionIntent :=
  if ch.length < cap then ch ++ [intent] else ch

/-- Replace the context stored at heap index r. -/
def setContext (s : ClientState) (r : Nat) (ctx : PendingContext) : ClientState :=
  { s with contexts := s.contexts.set r ctx }

/-- The channelId extraction of OpenclawClient.ProcessEvent
(client.go 485-490): the payload value under "channelId" when it is a
string, empty otherwise. -/
def payloadChannelId (p : Payload) : String := p.channelId.getD ""

/-- The registration prefix of OpenclawClient.ProcessEvent
(client.go 513-530): allocate a PendingContext carrying the routing data,
file it in the pending map under the conversation key (the event's
externalSessionId) and in the sessionCtx map under both that key and the
user id.  Returns the new state and the heap index of the context. -/
def registerPending (s : ClientState) (event : CanonicalInteractionEvent) :
    ClientState × Nat :=
  let conversationKey := event.session.externalSessionID
  let ctx : PendingContext :=
    { responseCh := []
      channelID := payloadChannelId event.input.payload
      userID := event.session.userID
      sessionID := event.session.externalSessionID }
  let ref := s.contexts.length
  ({ contexts := s.contexts ++ [ctx]
     pending := mapInsert s.pending conversationKey ref
     sessionCtx := mapInsert (mapInsert s.sessionCtx conversationKey ref)
       event.session.userID ref },
   ref)

/-- The deferred cleanup of OpenclawClient.ProcessEvent (client.go 532-537):
on every exit the pending map entry is deleted; the sessionCtx entries are
deliberately kept. -/
def exitCleanup (s : ClientState) (conversationKey : String) : ClientState :=
  { s with pending := mapErase s.pending conversationKey }

/-- OpenclawClient.deliverResponse (client.go 762-788): look the
conversation up in the pending map only, build a reply intent addressed to
the conversation id and try a non-blocking send into the context's
response channel.  The generated intent UUID is a parameter. -/
def deliverResponse (s : ClientState) (conversationID text replyToID intentID : String) :
    ClientState :=
  match mapLookup s.pending conversationID with
  | none => s
  | some r =>
    match s.contexts[r]? with
    | none => s
    | some ctx =>
      let intent := NewInteractionIntent intentID IntentTypeReply text conversationID replyToID
      setContext s r { ctx with responseCh := chanTrySend 1 ctx.responseCh intent }

/-- OpenclawOutboundPayload (client.go 120-131): what OpenClaw posts to the
outbound callback endpoint. -/
structure OpenclawOutboundPayload where
  To : String
  text : String
  mediaUrl : String
  replyToId : String
  threadId : String
deriving DecidableEq, Repr

/-- OutboundResponse (client.go 365-374): the callback payload enriched
with the routing information recovered from the matched context. -/
structure OutboundResponse where
  To : String
  text : String
  mediaUrl : String
  replyToId : String
  threadId : String
  channelID : String
  userID : String
  sessionID : String
deriving DecidableEq, Repr

def firstColonSplit : List Char → Option (List Char × List Char)
  | [] => none
  | c :: rest =>
    if c = ':' then some ([], rest)
    else
      match firstColonSplit rest with
      | none => none
      | some (pre, suf) => some (c :: pre, suf)

/-- The to-field parsing of HandleCallback (client.go 796-807): scan for
the first colon and split into the type prefix and the conversation id;
without a colon the whole field is the conversation id and the prefix is
empty. -/
def parseTo (target : String) : String × String :=
  match firstColonSplit target.toList with
  | none => ("", target)
  | some (pre, suf) => (String.mk pre, String.mk suf)

/-- OpenclawClient.HandleCallback (client.go 793-881): parse the target,
look the conversation id up first in the pending map and then in the
sessionCtx map; on a match copy the routing data into the outbound
response, build a reply intent addressed to the parsed conversation id
(with the media url as an attachment when present) and try a non-blocking
send into the matched context's response channel.  The outbound response is
returned in every case (and handed to the configured outbound callback by
the caller).  The generated intent UUID is a parameter. -/
def HandleCallback (s : ClientState) (cb : OpenclawOutboundPayload) (cbIntentID : String) :
    ClientState × OutboundResponse :=
  let conversationID := (parseTo cb.To).2
  let base : OutboundResponse :=
    { To := cb.To, text := cb.text, mediaUrl := cb.mediaUrl, replyToId := cb.replyToId,
      threadId := cb.threadId, channelID := "", userID := "", sessionID := "" }
  let found :=
    match mapLookup s.pending conversationID with
    | some r => some r
    | none => mapLookup s.sessionCtx conversationID
  match found with
  | none => (s, base)
  | some r =>
    match s.contexts[r]? with
    | none => (s, base)
    | some ctx =>
      let resp : OutboundResponse :=
        { base with
          channelID := ctx.channelID
          userID := ctx.userID
          sessionID := ctx.sessionID }
      let intent0 :=
        NewInteractionIntent cbIntentID IntentTypeReply cb.text conversationID cb.replyToId
      let intent :=
        if cb.mediaUrl = "" then intent0
        else { intent0 with content := { intent0.content with
                 attachments := intent0.content.attachments
                   ++ [{ type := "media", url := cb.mediaUrl, data := "", name := "" }] } }
      (setContext s r { ctx with responseCh := chanTrySend 1 ctx.responseCh intent }, resp)

/-- The text of the placeholder intent delivered on webhook success
(client.go 687-688). -/
def placeholderText : String := "消息已发送到 OpenClaw，等待 AI 响应..."

/-- Outcome of the retried send loop of OpenclawClient.ProcessEvent as
observed after the loop (client.go 539-564; the loop itself is modelled
exactly by openclawRetryLoop below): webhookOk means a clean first-attempt
webhook acceptance (a placeholder is delivered to the response channel,
client.go 686-690), chatOk a clean first-attempt chat-completions
acceptance (the response text is delivered when the choice list is
non-empty, client.go 749-756), and fail that lastErr is non-nil after the
loop, which makes the call return the exhausted error.  Because lastErr is
set on each failed attempt and never reset, fail covers every run with at
least one failed attempt, including runs whose later attempt succeeded;
such a late webhook success still delivers its placeholder before the
error return, a state difference invisible to the two maps and to the
returned error that this model elides. -/
inductive SendOutcome where
  | webhookOk
  | chatOk (responseText : Option String)
  | fail
deriving DecidableEq, Repr

/-- Callbacks processed between the send and the 100ms wait: each is a
HandleCallback invocation with its generated intent UUID. -/
def runCallbacks (s : ClientState) :
    List (OpenclawOutboundPayload × String) → ClientState
  | [] => s
  | c :: rest => runCallbacks (HandleCallback s c.1 c.2).1 rest

/-- The client state reached when the synchronous wait of
OpenclawClient.ProcessEvent begins (none when the send failed and the wait
is never reached). -/
def preWaitState (s : ClientState) (event : CanonicalInteractionEvent)
    (phIntentID : String) (outcome : SendOutcome)
    (cbs : List (OpenclawOutboundPayload × String)) : Option ClientState :=
  let s1 := (registerPending s event).1
  let key := event.session.externalSessionID
  match outcome with
  | SendOutcome.fail => none
  | SendOutcome.webhookOk =>
      some (runCallbacks (deliverResponse s1 key placeholderText event.interactionID
        phIntentID) cbs)
  | SendOutcome.chatOk (some txt) =>
      some (runCallbacks (deliverResponse s1 key txt event.interactionID phIntentID) cbs)
  | SendOutcome.chatOk none => some (runCallbacks s1 cbs)

/-- The bounded wait of OpenclawClient.ProcessEvent (client.go 566-577): a
value already in the response channel is returned at once; an empty channel
means the 100ms timer fires and the call returns the no-response error
instead of blocking. -/
def waitForResponse (s : ClientState) (r : Nat) :
    ClientState × Except String InteractionIntent :=
  match s.contexts[r]? with
  | none => (s, Except.error "no response from OpenClaw")
  | some ctx =>
    match ctx.responseCh with
    | [] => (s, Except.error "no response from OpenClaw")
    | intent :: rest => (setContext s r { ctx with responseCh := rest }, Except.ok intent)

/-- OpenclawClient.ProcessEvent (client.go 444-578): register the pending
and session contexts, perform the (retried) send, let any concurrent
callbacks run, wait briefly on the response channel, and on every exit run
the deferred pending-map cleanup. -/
def OpenclawProcessEvent (s : ClientState) (event : CanonicalInteractionEvent)
    (phIntentID : String) (outcome : SendOutcome)
    (cbs : List (OpenclawOutboundPayload × String)) :
    ClientState × Except String InteractionIntent :=
  let key := event.session.externalSessionID
  let reg := registerPending s event
  match preWaitState s event phIntentID outcome cbs with
  | none => (exitCleanup reg.1 key, Except.error "all retries exhausted")
  | some s3 =>
    let w := waitForResponse s3 reg.2
    (exitCleanup w.1 key, w.2)

/-- Contents of the registered context's response channel at the moment the
wait begins (none when the wait is never reached or the context vanished). -/
def chanAtWait (s : ClientState) (event : CanonicalInteractionEvent) (phIntentID : String)
    (outcome : SendOutcome) (cbs : List (OpenclawOutboundPayload × String)) :
    Option (List InteractionIntent) :=
  (preWaitState s event phIntentID outcome cbs).bind
    (fun s3 => (s3.contexts[(registerPending s event).2]?).map
      (fun ctx => ctx.responseCh))

/-! ### The two maps are untouched between registration and exit -/

theorem HandleCallback_maps (s : ClientState) (cb : OpenclawOutboundPayload)
    (cbIntentID : String) :
    (HandleCallback s cb cbIntentID).1.pending = s.pending
    ∧ (HandleCallback s cb cbIntentID).1.sessionCtx = s.sessionCtx := by
  simp only [HandleCallback]
  split
  · exact ⟨rfl, rfl⟩
  · split
    · exact ⟨rfl, rfl⟩
    · exact ⟨rfl, rfl⟩

theorem runCallbacks_maps (cbs : List (OpenclawOutboundPayload × String)) :
    ∀ s : ClientState, (runCallbacks s cbs).pending = s.pending
      ∧ (runCallbacks s cbs).sessionCtx = s.sessionCtx := by
  induction cbs with
  | nil => intro s; exact ⟨rfl, rfl⟩
  | cons c rest ih =>
    intro s
    have h1 := HandleCallback_maps s c.1 c.2
    have h2 := ih (HandleCallback s c.1 c.2).1
    exact ⟨h2.1.trans h1.1, h2.2.trans h1.2⟩

theorem deliverResponse_maps (s : ClientState) (conversationID text replyToID intentID : String) :
    (deliverResponse s conversationID text replyToID intentID).pending = s.pending
    ∧ (deliverResponse s conversationID text replyToID intentID).sessionCtx = s.sessionCtx := by
  simp only [deliverResponse]
  split
  · exact ⟨rfl, rfl⟩
  · split
    · exact ⟨rfl, rfl⟩
    · exact ⟨rfl, rfl⟩

theorem preWaitState_maps (s : ClientState) (event : CanonicalInteractionEvent)
    (phIntentID : String) (outcome : SendOutcome)
    (cbs : List (OpenclawOutboundPayload × String)) :
    ∀ s3, preWaitState s event phIntentID outcome cbs = some s3 →
      s3.pending = (registerPending s event).1.pending
      ∧ s3.sessionCtx = (registerPending s event).1.sessionCtx := by
  intro s3 h
  cases outcome with
  | fail => simp [preWaitState] at h
  | webhookOk =>
    simp only [preWaitState, Option.some.injEq] at h
    subst h
    have hr := runCallbacks_maps cbs (deliverResponse (registerPending s event).1
      event.session.externalSessionID placeholderText event.interactionID phIntentID)
    have hd := deliverResponse_maps (registerPending s event).1
      event.session.externalSessionID placeholderText event.interactionID phIntentID
    exact ⟨hr.1.trans hd.1, hr.2.trans hd.2⟩
  | chatOk txt =>
    cases txt with
    | some t =>
      simp only [preWaitState, Option.some.injEq] at h
      subst h
      have hr := runCallbacks_maps cbs (deliverResponse (registerPending s event).1
        event.session.externalSessionID t event.interactionID phIntentID)
      have hd := deliverResponse_maps (registerPending s event).1
        event.session.externalSessionID t event.interactionID phIntentID
      exact ⟨hr.1.trans hd.1, hr.2.trans hd.2⟩
    | none =>
      simp only [preWaitState, Option.some.injEq] at h
      subst h
      exact runCallbacks_maps cbs (registerPending s event).1

theorem waitForResponse_maps (s : ClientState) (r : Nat) :
    (waitForResponse s r).1.pending = s.pending
    ∧ (waitForResponse s r).1.sessionCtx = s.sessionCtx := by
  simp only [waitForResponse]
  split
  · exact ⟨rfl, rfl⟩
  · split
    · exact ⟨rfl, rfl⟩
    · exact ⟨rfl, rfl⟩

/-- After registration the sessionCtx map resolves the conversation key to
the freshly allocated context, whether or not the user id collides with the
key. -/
theorem registerPending_sessionCtx_lookup (s : ClientState)
    (event : CanonicalInteractionEvent) :
    mapLookup (registerPending s event).1.sessionCtx event.session.externalSessionID
      = some s.contexts.length := by
  simp only [registerPending]
  by_cases h : event.session.userID = event.session.externalSessionID
  · rw [h]
    exact mapLookup_insert_self _ _ _
  · rw [mapLookup_insert_other _ _ _ _ h]
    exact mapLookup_insert_self _ _ _

/-- C4: on every exit of OpenclawClient.ProcessEvent — send failure,
resolved wait, or expired wait — the pending (in-flight) map no longer
holds the conversation key, while the sessionCtx map still resolves that
key to the registered context; and whenever the response channel is empty
when the wait starts, the call returns the no-response error rather than an
intent or blocking (OpenclawClient.ProcessEvent, client.go 513-577). -/
theorem C4_inflight_retired_session_kept (s : ClientState)
    (event : CanonicalInteractionEvent) (phIntentID : String) (outcome : SendOutcome)
    (cbs : List (OpenclawOutboundPayload × String)) :
    mapLookup (OpenclawProcessEvent s event phIntentID outcome cbs).1.pending
        event.session.externalSessionID = none
    ∧ mapLookup (OpenclawProcessEvent s event phIntentID outcome cbs).1.sessionCtx
        event.session.externalSessionID = some s.contexts.length
    ∧ (chanAtWait s event phIntentID outcome cbs = some [] →
        (OpenclawProcessEvent s event phIntentID outcome cbs).2
          = Except.error "no response from OpenClaw") := by
  refine ⟨?_, ?_, ?_⟩
  · cases hpre : preWaitState s event phIntentID outcome cbs with
    | none =>
      simp [OpenclawProcessEvent, hpre, exitCleanup, mapLookup_erase_self]
    | some s3 =>
      simp [OpenclawProcessEvent, hpre, exitCleanup, mapLookup_erase_self]
  · cases hpre : preWaitState s event phIntentID outcome cbs with
    | none =>
      simp only [OpenclawProcessEvent, hpre, exitCleanup]
      exact registerPending_sessionCtx_lookup s event
    | some s3 =>
      simp only [OpenclawProcessEvent, hpre, exitCleanup]
      rw [(waitForResponse_maps s3 (registerPending s event).2).2]
      rw [(preWaitState_maps s event phIntentID outcome cbs s3 hpre).2]
      exact registerPending_sessionCtx_lookup s event
  · intro hch
    cases hpre : preWaitState s event phIntentID outcome cbs with
    | none => simp [chanAtWait, hpre] at hch
    | some s3 =>
      cases hctx : s3.contexts[(registerPending s event).2]? with
      | none => simp [chanAtWait, hpre, hctx] at hch
      | some ctx =>
        simp [chanAtWait, hpre, hctx] at hch
        simp [OpenclawProcessEvent, hpre, waitForResponse, hctx, hch]

/-- A sample event with distinct session and user ids used to instantiate
the C4 theorem. -/
def c4Event : CanonicalInteractionEvent :=
  NewCanonicalInteractionEvent "i-4" "t-4" 0 "s4" "u4" InputTypeText
    { text := some "ping", channelId := some "", conversationType := some "direct" }
    localCapabilities "local-adapter"

/-- Witness for C4: a chat-completions send that returned no choices and no
concurrent callback leaves the channel empty, so the call times out with
the no-response error, the pending entry is gone and the session entry is
retained. -/
theorem C4_inflight_retired_session_kept_witness :
    mapLookup (OpenclawProcessEvent emptyClientState c4Event "ph-4"
        (SendOutcome.chatOk none) []).1.pending "s4" = none
    ∧ mapLookup (OpenclawProcessEvent emptyClientState c4Event "ph-4"
        (SendOutcome.chatOk none) []).1.sessionCtx "s4" = some 0
    ∧ (OpenclawProcessEvent emptyClientState c4Event "ph-4"
        (SendOutcome.chatOk none) []).2 = Except.error "no response from OpenClaw" :=
  ⟨(C4_inflight_retired_session_kept emptyClientState c4Event "ph-4"
      (SendOutcome.chatOk none) []).1,
   (C4_inflight_retired_session_kept emptyClientState c4Event "ph-4"
      (SendOutcome.chatOk none) []).2.1,
   (C4_inflight_retired_session_kept emptyClientState c4Event "ph-4"
      (SendOutcome.chatOk none) []).2.2 (by decide)⟩

/-! ## The end-to-end scenario of C2 -/

instance {α β : Type} [DecidableEq α] [DecidableEq β] : DecidableEq (Except α β) :=
  fun a b =>
    match a, b with
    | Except.ok x, Except.ok y =>
      if h : x = y then Decidable.isTrue (by rw [h])
      else Decidable.isFalse (fun hc => h (Except.ok.inj hc))
    | Except.error x, Except.error y =>
      if h : x = y then Decidable.isTrue (by rw [h])
      else Decidable.isFalse (fun hc => h (Except.error.inj hc))
    | Except.ok _, Except.error _ => Decidable.isFalse (fun hc => Except.noConfusion hc)
    | Except.error _, Except.ok _ => Decidable.isFalse (fun hc => Except.noConfusion hc)

/-- The C2 message request: sessionId s1, userId u1, text hello. -/
def c2Request : MessageRequest :=
  { sessionID := "s1", userID := "u1", text := "hello", type := "",
    channelID := "", conversationType := "" }

/-- The canonical event the local adapter produces for the C2 request. -/
def c2Event : CanonicalInteractionEvent :=
  handleMessage localCapabilities "unused-uuid" "i-100" "t-100" 0 c2Request

/-- The C2 outbound callback: to user u1, text hi there. -/
def c2Callback : OpenclawOutboundPayload :=
  { To := "user:u1", text := "hi there", mediaUrl := "", replyToId := "", threadId := "" }

/-- The C2 run: the event is registered, the (chat-completions) send is
accepted without a synchronous text, and the callback is handled while the
synchronous wait is outstanding. -/
def c2Run : ClientState × Except String InteractionIntent :=
  OpenclawProcessEvent emptyClientState c2Event "ph-100" (SendOutcome.chatOk none)
    [(c2Callback, "cb-100")]

/-- The intent that actually resolves the C2 wait. -/
def c2ResolvedIntent : InteractionIntent :=
  NewInteractionIntent "cb-100" IntentTypeReply "hi there" "u1" ""

/-- C2 counterexample: in the end-to-end scenario the wait is resolved with
an intent whose text is the callback text, but whose targetSessionId is
"u1" — the identifier parsed from the callback's to field — and not "s1" as
the claim states (HandleCallback builds the intent on the parsed
conversation id, client.go 836-841). -/
theorem C2_counterexample_target_is_parsed_id :
    c2Run.2 = Except.ok c2ResolvedIntent
    ∧ c2ResolvedIntent.content.text = "hi there"
    ∧ c2ResolvedIntent.targetSessionID ≠ "s1" := by
  refine ⟨by decide, by decide, by decide⟩

/-- C2 amended: submitting sessionId s1 / userId u1 / text hello yields an
event whose correlation key is s1; delivering the callback to user:u1
while the wait is outstanding resolves the wait with an intent whose
content text is "hi there" and whose targetSessionId is "u1", the
identifier parsed from the to field; the routing information attached to
the outbound response carries sessionId "s1" (and the callback text), so
the push-transport path is routed to the original session. -/
theorem C2_end_to_end_amended :
    c2Event.session.externalSessionID = "s1"
    ∧ c2Run.2 = Except.ok c2ResolvedIntent
    ∧ c2ResolvedIntent.content.text = "hi there"
    ∧ c2ResolvedIntent.targetSessionID = "u1"
    ∧ (HandleCallback (registerPending emptyClientState c2Event).1 c2Callback
        "cb-100").2.sessionID = "s1"
    ∧ (HandleCallback (registerPending emptyClientState c2Event).1 c2Callback
        "cb-100").2.text = "hi there" := by
  refine ⟨by decide, by decide, by decide, by decide, by decide, by decide⟩

/-! ## The retry loop of OpenclawClient.ProcessEvent (client.go 539-564)

Unlike HTTPClient.ProcessEvent, which returns the intent from inside the
loop on success, OpenclawClient's loop only breaks on success and then
tests lastErr — which is set on every failed attempt and never reset — so
any run with at least one failed attempt exits with the exhausted error
even when a later attempt succeeded. -/

/-- Result of the OpenclawClient send loop together with the number of send
attempts performed: cancelled during a backoff (returns ctx.Err), loop left
with lastErr non-nil (returns the exhausted error), or loop left with
lastErr nil (falls through to the synchronous wait). -/
inductive OpenclawSendResult where
  | ctxCancelled (attempts : Nat)
  | exhaustedErr (attempts : Nat)
  | okSend (attempts : Nat)
deriving DecidableEq, Repr

/-- One pass of the OpenclawClient loop from the given attempt number, with
the given remaining iterations and the current lastErr state. -/
def openclawRetryFrom (sendOk : Nat → Bool) (cancelled : Nat → Bool) :
    Nat → Nat → Bool → OpenclawSendResult
  | _, 0, lastErrSet =>
    if lastErrSet then OpenclawSendResult.exhaustedErr 0 else OpenclawSendResult.okSend 0
  | attempt, fuel + 1, lastErrSet =>
    if 0 < attempt ∧ cancelled attempt then OpenclawSendResult.ctxCancelled 0
    else if sendOk attempt then
      (if lastErrSet then OpenclawSendResult.exhaustedErr 1 else OpenclawSendResult.okSend 1)
    else
      match openclawRetryFrom sendOk cancelled (attempt + 1) fuel true with
      | OpenclawSendResult.ctxCancelled n => OpenclawSendResult.ctxCancelled (n + 1)
      | OpenclawSendResult.exhaustedErr n => OpenclawSendResult.exhaustedErr (n + 1)
      | OpenclawSendResult.okSend n => OpenclawSendResult.okSend (n + 1)

/-- The whole send loop of OpenclawClient.ProcessEvent: attempts 0 through
maxRetries, starting with lastErr nil. -/
def openclawRetryLoop (maxRetries : Nat) (sendOk : Nat → Bool) (cancelled : Nat → Bool) :
    OpenclawSendResult :=
  openclawRetryFrom sendOk cancelled 0 (maxRetries + 1) false

/-- Once lastErr is set it can never be cleared, so no continuation of the
loop ends with lastErr nil. -/
theorem openclawRetryFrom_lastErr_no_okSend (sendOk cancelled : Nat → Bool) :
    ∀ fuel attempt n,
      openclawRetryFrom sendOk cancelled attempt fuel true
        ≠ OpenclawSendResult.okSend n := by
  intro fuel
  induction fuel with
  | zero => intro a n h; simp [openclawRetryFrom] at h
  | succ m ih =>
    intro a n h
    by_cases hc : 0 < a ∧ cancelled a
    · simp [openclawRetryFrom, hc] at h
    · by_cases hs : sendOk a = true
      · simp [openclawRetryFrom, hc, hs] at h
      · cases hr : openclawRetryFrom sendOk cancelled (a + 1) m true with
        | ctxCancelled k => simp [openclawRetryFrom, hc, hs, hr] at h
        | exhaustedErr k => simp [openclawRetryFrom, hc, hs, hr] at h
        | okSend k => exact ih (a + 1) k hr

/-- Only a run whose very first attempt succeeds leaves the loop with
lastErr nil and reaches the synchronous wait. -/
theorem openclawRetryLoop_okSend_first (maxRetries : Nat) (sendOk cancelled : Nat → Bool)
    (n : Nat)
    (h : openclawRetryLoop maxRetries sendOk cancelled = OpenclawSendResult.okSend n) :
    sendOk 0 = true := by
  by_cases hs : sendOk 0 = true
  · exact hs
  · exfalso
    cases hr : openclawRetryFrom sendOk cancelled 1 maxRetries true with
    | ctxCancelled k => simp [openclawRetryLoop, openclawRetryFrom, hs, hr] at h
    | exhaustedErr k => simp [openclawRetryLoop, openclawRetryFrom, hs, hr] at h
    | okSend k =>
      exact openclawRetryFrom_lastErr_no_okSend sendOk cancelled maxRetries 1 k hr

/-- C7 amended: the outbound send makes at most maxRetries + 1 send
attempts (one initial attempt plus up to maxRetries backoff retries); the
backoff before retry k is 100ms doubled per attempt; a context cancelled
during a backoff aborts at once with the context error.  In the
fails-twice-then-succeeds scenario with max-retries 3,
HTTPClient.ProcessEvent succeeds after exactly 3 attempts
(client.go 203-228), but OpenclawClient.ProcessEvent performs the same 3
attempts and still exits with lastErr set (client.go 540-563, lastErr is
never reset), so the call returns the exhausted error instead of reaching
the wait; only a clean first-attempt success ever leaves the loop with
lastErr nil. -/
theorem C7_retry_policy_amended (maxRetries : Nat)
    (send : Nat → Option InteractionIntent) (cancelled : Nat → Bool) :
    (httpRetryLoop maxRetries send cancelled).attempts ≤ maxRetries + 1
    ∧ (∀ k, 1 ≤ k → backoffMs k = 100 * 2 ^ (k - 1))
    ∧ httpRetryLoop 3 (fun a => if a < 2 then none else some retryIntent) (fun _ => false)
        = RetryResult.success 3 retryIntent
    ∧ (1 ≤ maxRetries → send 0 = none → cancelled 1 = true →
        httpRetryLoop maxRetries send cancelled = RetryResult.ctxCancelled 1)
    ∧ openclawRetryLoop 3 (fun a => decide (2 ≤ a)) (fun _ => false)
        = OpenclawSendResult.exhaustedErr 3
    ∧ (∀ s event phIntentID cbs,
        (OpenclawProcessEvent s event phIntentID SendOutcome.fail cbs).2
          = Except.error "all retries exhausted")
    ∧ (∀ sendOkB cancelledB : Nat → Bool, ∀ n,
        openclawRetryLoop maxRetries sendOkB cancelledB = OpenclawSendResult.okSend n →
        sendOkB 0 = true) := by
  refine ⟨retryFrom_attempts_le send cancelled (maxRetries + 1) 0, ?_, by decide, ?_,
    by decide, ?_, ?_⟩
  · intro k _
    simp [backoffMs, Nat.shiftLeft_eq, Nat.mul_comm]
  · intro hmax hs hc
    obtain ⟨m, rfl⟩ : ∃ m, maxRetries = m + 1 := ⟨maxRetries - 1, by omega⟩
    simp [httpRetryLoop, retryFrom, hs, hc]
  · intro s event phIntentID cbs
    rfl
  · intro sendOkB cancelledB n h
    exact openclawRetryLoop_okSend_first maxRetries sendOkB cancelledB n h

/-- Witness for C7: the cancellation clause applied at max-retries = 3 with
an always-failing send and a context cancelled from the first backoff on;
the backoff formula at the third retry; and the only-first-attempt-succeeds
clause applied at an always-succeeding send. -/
theorem C7_retry_policy_amended_witness :
    httpRetryLoop 3 (fun _ => (none : Option InteractionIntent)) (fun _ => true)
      = RetryResult.ctxCancelled 1
    ∧ backoffMs 3 = 100 * 2 ^ 2
    ∧ (fun _ : Nat => true) 0 = true :=
  ⟨(C7_retry_policy_amended 3 (fun _ => none) (fun _ => true)).2.2.2.1
      (by decide) rfl rfl,
   (C7_retry_policy_amended 3 (fun _ => none) (fun _ => true)).2.1 3 (by decide),
   (C7_retry_policy_amended 3 (fun _ => none) (fun _ => true)).2.2.2.2.2.2
      (fun _ => true) (fun _ => false) 1 (by decide)⟩

end UIP
